import Mathlib

/-!
Verification of the `manim-progress-bar` widget
(`src/manim_progress_bar/progress_bar.py`), shallowly embedded over ℚ.

The widget's numeric state (progress, fill geometry, label visibility) is
modelled with rational numbers; Python float constants 0.95 and 0.9 are the
rationals 19/20 and 9/10. The one genuinely transcendental part — the
`cos`/`sin` fallback branch of `_get_direction_vector` — is abstracted as a
function parameter `trigDir`, since every claim about direction vectors only
concerns the exact special-angle branches, which bypass trigonometry.
-/

namespace ProgressBarModel

/-- A 3-component vector, standing for the numpy arrays `[x, y, 0]` used by
the widget for positions and direction vectors. -/
@[ext]
structure Vec3 where
  x : ℚ
  y : ℚ
  z : ℚ
deriving DecidableEq, Repr

def Vec3.add (a b : Vec3) : Vec3 := ⟨a.x + b.x, a.y + b.y, a.z + b.z⟩

def Vec3.smul (c : ℚ) (v : Vec3) : Vec3 := ⟨c * v.x, c * v.y, c * v.z⟩

/-- Python's `%` for a positive modulus: `a - b * ⌊a / b⌋`, the representative
in `[0, b)`. Embeds `angle_deg % 360` in `_get_direction_vector`. -/
def pymod (a b : ℚ) : ℚ := a - b * ⌊a / b⌋

/-- `ProgressBar._get_direction_vector` (progress_bar.py lines 134-157).
`trigDir` stands for the `else` branch: the normalised
`[cos(angle_rad), sin(angle_rad), 0]` vector, a function of the angle. -/
def get_direction_vector (angle_deg : ℚ) (trigDir : ℚ → Vec3) : Vec3 :=
  let m := pymod angle_deg 360
  if |m - 0| < 1/1000000 ∨ |m - 360| < 1/1000000 then ⟨1, 0, 0⟩
  else if |m - 90| < 1/1000000 then ⟨0, 1, 0⟩
  else if |m - 180| < 1/1000000 then ⟨-1, 0, 0⟩
  else if |m - 270| < 1/1000000 then ⟨0, -1, 0⟩
  else trigDir angle_deg

/-- Class constant `FILL_HEIGHT_RATIO = 0.95` (the fill bar's height as a
fraction of the configured height). -/
def fillHeightScale : ℚ := 19/20

/-- Class constant `BASE_MIN_SIZE = 0.1`. -/
def BASE_MIN_SIZE : ℚ := 1/10

/-- Per-instance configuration fixed at construction time: the `__init__`
parameters the geometry depends on, plus `bg_center`, the background's centre
(`self.background.get_center()`), and the abstract trig fallback. -/
structure BarConfig where
  width : ℚ
  height : ℚ
  corner_radius : ℚ
  show_percentage : Bool
  angle : ℚ
  trigDir : ℚ → Vec3
  bg_center : Vec3

/-- `self.MIN_SIZE = max(BASE_MIN_SIZE, 2 * (corner_radius * 0.9))`
(progress_bar.py line 200). -/
def MIN_SIZE (cfg : BarConfig) : ℚ :=
  max BASE_MIN_SIZE (2 * (cfg.corner_radius * (9/10)))

/-- `self.bg_half_length = width / 2` (progress_bar.py line 216). -/
def bg_half_length (cfg : BarConfig) : ℚ := cfg.width / 2

/-- The per-instance direction vector,
`self._get_direction_vector(self.angle, self.angle_rad)`. -/
def direction (cfg : BarConfig) : Vec3 :=
  get_direction_vector cfg.angle cfg.trigDir

/-- Result of `_calculate_fill_bar_properties`: the tuple
`(width, height, center_x, center_y, center_z)`. -/
@[ext]
structure FillProps where
  len : ℚ
  hgt : ℚ
  center : Vec3
deriving DecidableEq, Repr

/-- `ProgressBar._calculate_fill_bar_properties` (progress_bar.py
lines 295-323). -/
def calculate_fill_bar_properties (cfg : BarConfig) (progress : ℚ) : FillProps :=
  let direction_vec := direction cfg
  let bg_total_length := 2 * bg_half_length cfg
  let fill_height := cfg.height * fillHeightScale
  let fill_length :=
    if progress ≤ 0 then MIN_SIZE cfg
    else if 1 ≤ progress then bg_total_length
    else max (MIN_SIZE cfg) (bg_total_length * progress)
  let start_offset := -(bg_half_length cfg) + fill_length / 2
  { len := fill_length
    hgt := fill_height
    center := Vec3.add cfg.bg_center (Vec3.smul start_offset direction_vec) }

/-- `max(0.0, min(1.0, x))`, the clamp applied on every progress write. -/
def clamp01 (x : ℚ) : ℚ := max 0 (min 1 x)

/-- The widget's mutable observable state: the current progress, the fill
bar's geometry, the percentage label's membership in `self.submobjects`, its
opacity and displayed integer percentage, and the number of installed
updaters. -/
@[ext]
structure BarState where
  current_progress : ℚ
  fillWidth : ℚ
  fillHeight : ℚ
  fillCenter : Vec3
  labelPresent : Bool
  labelOpacity : ℚ
  labelText : ℤ
  updaters : ℕ
deriving DecidableEq, Repr

/-- `ProgressBar.update_progress_instant` (progress_bar.py lines 409-442):
clamp, recompute fill geometry, then remove the label at progress ≥ 1 or
(re)add it with opacity 1 and refreshed text below 1. -/
def update_progress_instant (cfg : BarConfig) (s : BarState) (progress : ℚ) :
    BarState :=
  let p := clamp01 progress
  let props := calculate_fill_bar_properties cfg p
  let s1 := { s with current_progress := p, fillWidth := props.len,
                     fillHeight := props.hgt, fillCenter := props.center }
  if cfg.show_percentage then
    if 1 ≤ p then
      { s1 with labelPresent := false }
    else
      { s1 with labelPresent := true, labelOpacity := 1,
                labelText := ⌊p * 100⌋ }
  else s1

/-- The fill geometry that `update_fill_bar` (the per-frame closure inside
`set_progress`, progress_bar.py lines 346-360) installs at interpolation
fraction `alpha`: linear interpolation between the properties at the old
progress `p0` and at the (already clamped) `target`, with width and height
floored at `MIN_SIZE`. -/
def set_progress_fill_at (cfg : BarConfig) (p0 target alpha : ℚ) : FillProps :=
  let st := calculate_fill_bar_properties cfg p0
  let tg := calculate_fill_bar_properties cfg target
  let current_width := st.len + (tg.len - st.len) * alpha
  let current_height := st.hgt + (tg.hgt - st.hgt) * alpha
  let cx := st.center.x + (tg.center.x - st.center.x) * alpha
  let cy := st.center.y + (tg.center.y - st.center.y) * alpha
  let cz := st.center.z + (tg.center.z - st.center.z) * alpha
  { len := max (MIN_SIZE cfg) current_width
    hgt := max (MIN_SIZE cfg) current_height
    center := ⟨cx, cy, cz⟩ }

/-- End state of playing `ProgressBar.set_progress` (progress_bar.py
lines 325-406) to completion (`alpha = 1`): `current_progress` is set to the
clamped target at call time (line 341), the fill geometry is the `alpha = 1`
frame of `update_fill_bar`, and the label is faded out and removed at
progress ≥ 1 (`hide_and_remove` at `alpha = 1`) or present with opacity 1 and
the new percentage text below 1. -/
def set_progress_end (cfg : BarConfig) (s : BarState) (progress : ℚ) :
    BarState :=
  let p := clamp01 progress
  let fp := set_progress_fill_at cfg s.current_progress p 1
  let s1 := { s with current_progress := p, fillWidth := fp.len,
                     fillHeight := fp.hgt, fillCenter := fp.center }
  if cfg.show_percentage then
    if 1 ≤ p then
      { s1 with labelPresent := false, labelOpacity := 0 }
    else
      { s1 with labelPresent := true, labelOpacity := 1,
                labelText := ⌊p * 100⌋ }
  else s1

/-- The progress computed by the `auto_progress` per-frame updater
`update_progress` (progress_bar.py lines 481-501) from the stored clamped
start/end, the duration and the current tracker time: the three-way branch on
time, then the final `progress >= 1.0 → progress = 1.0` guard. -/
def autoComputedProgress (sp ep d t : ℚ) : ℚ :=
  let progress :=
    if t ≤ 0 then sp
    else if d ≤ t then ep
    else sp + (t / d) * (ep - sp)
  if 1 ≤ progress then 1 else progress

/-- The state effect of one run of the `auto_progress` updater
`update_progress` (progress_bar.py lines 481-536) on the widget: recompute
the fill geometry at the time-derived progress, update the label (remove at
≥ 1, else ensure present with opacity 1 and fresh text), and store the
progress. `sp`/`ep` are the raw `auto_progress` arguments; the clamping at
lines 460-461 is applied before they are stored. -/
def auto_updater_run (cfg : BarConfig) (s : BarState) (sp ep d t : ℚ) :
    BarState :=
  let sp1 := clamp01 sp
  let ep1 := clamp01 ep
  let p := autoComputedProgress sp1 ep1 d t
  let props := calculate_fill_bar_properties cfg p
  let s1 := { s with fillWidth := props.len, fillHeight := props.hgt,
                     fillCenter := props.center }
  let s2 :=
    if cfg.show_percentage then
      if 1 ≤ p then
        { s1 with labelPresent := false }
      else
        { s1 with labelPresent := true, labelOpacity := 1,
                  labelText := ⌊p * 100⌋ }
    else s1
  { s2 with current_progress := p }

/-- One progress update applied to the widget: either an
`update_progress_instant` call or one firing of the `auto_progress` per-frame
updater. -/
inductive UpdateEvent where
  | instant (p : ℚ)
  | autoFrame (sp ep d t : ℚ)
deriving DecidableEq

def applyEvent (cfg : BarConfig) (s : BarState) : UpdateEvent → BarState
  | .instant p => update_progress_instant cfg s p
  | .autoFrame sp ep d t => auto_updater_run cfg s sp ep d t

/-- The synchronous effect of calling `ProgressBar.auto_progress`
(progress_bar.py lines 444-471, 540) before its returned animation plays:
clamp the endpoints, apply `update_progress_instant(start_progress)`, clear
all previously installed updaters, and install the single new per-frame
updater. -/
def auto_progress_call (cfg : BarConfig) (s : BarState) (sp ep : ℚ) :
    BarState :=
  let sp1 := clamp01 sp
  let s1 := update_progress_instant cfg s sp1
  { s1 with updaters := 1 }

/-- The bookkeeping state of one `auto_progress` animation run: the
`ValueTracker` time, the `_updater_cleared` flag, whether the per-frame
updater is still installed, how many times the final end-state commit (the
`alpha >= 1.0` block of `update_func`, progress_bar.py lines 556-581) has
executed, and the widget's `current_progress`. -/
@[ext]
structure AutoRunState where
  time : ℚ
  cleared : Bool
  installed : Bool
  commits : ℕ
  progress : ℚ
deriving DecidableEq, Repr

/-- One scheduler event during an `auto_progress` run: the animation's
`update_func` invoked at interpolation fraction `alpha`, or the per-frame
updater `update_progress` firing. -/
inductive AutoEvent where
  | tick (alpha : ℚ)
  | frameUpdate
deriving DecidableEq

/-- `update_func` (progress_bar.py lines 546-581) acting on the run state:
set the tracker to `alpha * duration`; when `alpha >= 1.0` and
`_updater_cleared` is still false, commit the final end state
(`current_progress = end_progress`), call `clear_updaters()` and set the
flag. `ep` is the stored clamped `_auto_end_progress`. -/
def auto_update_func (d ep alpha : ℚ) (st : AutoRunState) : AutoRunState :=
  let st1 := { st with time := alpha * d }
  if 1 ≤ alpha ∧ st1.cleared = false then
    { st1 with progress := ep, commits := st1.commits + 1,
               installed := false, cleared := true }
  else st1

/-- The per-frame updater `update_progress` (progress_bar.py lines 481-536)
acting on the run state: when still installed, it recomputes the progress
from the tracker time and, in the `current_time >= duration` branch, marks
`_updater_cleared` (lines 489-494). `sp`/`ep` are the stored clamped
endpoints. -/
def auto_frame_updater (sp ep d : ℚ) (st : AutoRunState) : AutoRunState :=
  if st.installed then
    let cleared1 := if 0 < st.time ∧ d ≤ st.time then true else st.cleared
    { st with cleared := cleared1,
              progress := autoComputedProgress sp ep d st.time }
  else st

def auto_run_step (sp ep d : ℚ) (st : AutoRunState) : AutoEvent → AutoRunState
  | .tick alpha => auto_update_func d ep alpha st
  | .frameUpdate => auto_frame_updater sp ep d st

/-- Run state right after `auto_progress` returns: tracker at 0, flag clear,
updater installed, no commit yet, progress snapped to the clamped start. -/
def autoInitState (sp : ℚ) : AutoRunState :=
  { time := 0, cleared := false, installed := true, commits := 0,
    progress := sp }

/-- Processing a sequence of scheduler events of one `auto_progress` run. -/
def auto_run (sp ep d : ℚ) (es : List AutoEvent) : AutoRunState :=
  es.foldl (auto_run_step sp ep d) (autoInitState sp)

/-- The end-state observables compared between `set_progress` played to
completion and `update_progress_instant`: progress, fill geometry, label
presence, and — when the label is present — its opacity and text. -/
def stateEquiv (a b : BarState) : Prop :=
  a.current_progress = b.current_progress ∧ a.fillWidth = b.fillWidth ∧
  a.fillHeight = b.fillHeight ∧ a.fillCenter = b.fillCenter ∧
  a.labelPresent = b.labelPresent ∧
  (a.labelPresent = true → a.labelOpacity = b.labelOpacity ∧
    a.labelText = b.labelText)

instance (a b : BarState) : Decidable (stateEquiv a b) := by
  unfold stateEquiv; infer_instance

/-- The terminal situation of an `auto_progress` run: the updater has been
cleared and removed, the final commit has run exactly once, and the progress
sits at the end progress. -/
def autoRunDone (ep : ℚ) (st : AutoRunState) : Prop :=
  st.cleared = true ∧ st.installed = false ∧ st.commits = 1 ∧
  st.progress = ep

/-- Reachability invariant of an `auto_progress` run: either the animation is
still in flight (flag clear, updater installed, no commit, tracker strictly
before the duration) or it has terminated as in `autoRunDone`. -/
def autoRunInv (d ep : ℚ) (st : AutoRunState) : Prop :=
  (st.cleared = false ∧ st.installed = true ∧ st.commits = 0 ∧ st.time < d) ∨
  autoRunDone ep st

/-- A concrete configuration (the widget's default geometry: width 10,
height 0.3, corner radius 0.1, horizontal, percentage shown, centred at the
default position) used to instantiate theorems with hypotheses. -/
def cfgA : BarConfig :=
  { width := 10, height := 3/10, corner_radius := 1/10,
    show_percentage := true, angle := 0, trigDir := fun _ => ⟨1, 0, 0⟩,
    bg_center := ⟨0, -7/2, 0⟩ }

/-- A configuration whose fill height `0.95 * height` falls below `MIN_SIZE`
(height 0.1 with corner radius 0.1 gives fill height 0.095 < 0.18). -/
def cfgB : BarConfig :=
  { width := 10, height := 1/10, corner_radius := 1/10,
    show_percentage := true, angle := 0, trigDir := fun _ => ⟨1, 0, 0⟩,
    bg_center := ⟨0, 0, 0⟩ }

/-- A concrete scheduler trace of an `auto_progress` run with duration 5:
frames at interpolation fractions 0, 1/2 and 1, plus a repeated final tick
(as when the host re-applies the final interpolation on finishing). -/
def esW : List AutoEvent :=
  [AutoEvent.tick 0, AutoEvent.frameUpdate, AutoEvent.tick (1/2),
    AutoEvent.frameUpdate, AutoEvent.tick 1, AutoEvent.frameUpdate,
    AutoEvent.tick 1]

/-- A concrete widget state (the state right after construction of `cfgA`). -/
def s0 : BarState :=
  { current_progress := 0, fillWidth := 9/50, fillHeight := 57/200,
    fillCenter := ⟨-491/100, -7/2, 0⟩, labelPresent := true,
    labelOpacity := 1, labelText := 0, updaters := 0 }

theorem clamp01_nonneg (x : ℚ) : 0 ≤ clamp01 x := le_max_left _ _

theorem clamp01_le_one (x : ℚ) : clamp01 x ≤ 1 :=
  max_le zero_le_one (min_le_left _ _)

theorem clamp01_idem (x : ℚ) : clamp01 (clamp01 x) = clamp01 x := by
  unfold clamp01
  rcases le_total x 0 with h | h
  · rw [min_eq_right (h.trans zero_le_one), max_eq_left h]
    norm_num
  · rcases le_total 1 x with h1 | h1
    · rw [min_eq_left h1]
      norm_num
    · rw [min_eq_right h1, max_eq_right h, min_eq_right h1, max_eq_right h]

theorem calc_len_eq (cfg : BarConfig) (p : ℚ) :
    (calculate_fill_bar_properties cfg p).len =
      if p ≤ 0 then MIN_SIZE cfg
      else if 1 ≤ p then 2 * bg_half_length cfg
      else max (MIN_SIZE cfg) (2 * bg_half_length cfg * p) := rfl

theorem calc_hgt_eq (cfg : BarConfig) (p : ℚ) :
    (calculate_fill_bar_properties cfg p).hgt =
      cfg.height * fillHeightScale := rfl

theorem calc_center_eq (cfg : BarConfig) (p : ℚ) :
    (calculate_fill_bar_properties cfg p).center =
      Vec3.add cfg.bg_center
        (Vec3.smul (-(bg_half_length cfg) +
            (calculate_fill_bar_properties cfg p).len / 2)
          (direction cfg)) := rfl

theorem spfa_len (cfg : BarConfig) (p0 target alpha : ℚ) :
    (set_progress_fill_at cfg p0 target alpha).len =
      max (MIN_SIZE cfg)
        ((calculate_fill_bar_properties cfg p0).len +
          ((calculate_fill_bar_properties cfg target).len -
            (calculate_fill_bar_properties cfg p0).len) * alpha) := rfl

theorem spfa_hgt (cfg : BarConfig) (p0 target alpha : ℚ) :
    (set_progress_fill_at cfg p0 target alpha).hgt =
      max (MIN_SIZE cfg)
        ((calculate_fill_bar_properties cfg p0).hgt +
          ((calculate_fill_bar_properties cfg target).hgt -
            (calculate_fill_bar_properties cfg p0).hgt) * alpha) := rfl

theorem spfa_center (cfg : BarConfig) (p0 target alpha : ℚ) :
    (set_progress_fill_at cfg p0 target alpha).center =
      ⟨(calculate_fill_bar_properties cfg p0).center.x +
          ((calculate_fill_bar_properties cfg target).center.x -
            (calculate_fill_bar_properties cfg p0).center.x) * alpha,
        (calculate_fill_bar_properties cfg p0).center.y +
          ((calculate_fill_bar_properties cfg target).center.y -
            (calculate_fill_bar_properties cfg p0).center.y) * alpha,
        (calculate_fill_bar_properties cfg p0).center.z +
          ((calculate_fill_bar_properties cfg target).center.z -
            (calculate_fill_bar_properties cfg p0).center.z) * alpha⟩ := rfl

/-- C1: for every configuration (hence every configured angle) and progress
value, `_calculate_fill_bar_properties` returns fill length `MIN_SIZE` for
progress ≤ 0, exactly the background's total length `2 * (width / 2)` for
progress ≥ 1, `max(MIN_SIZE, total_length * progress)` in between, and a fill
center equal to `background_center + direction * (-half_length +
fill_length / 2)`. -/
theorem C1_fill_geometry (cfg : BarConfig) (p : ℚ) :
    (p ≤ 0 → (calculate_fill_bar_properties cfg p).len = MIN_SIZE cfg) ∧
    (1 ≤ p →
      (calculate_fill_bar_properties cfg p).len = 2 * (cfg.width / 2)) ∧
    (0 < p → p < 1 →
      (calculate_fill_bar_properties cfg p).len =
        max (MIN_SIZE cfg) (2 * (cfg.width / 2) * p)) ∧
    (calculate_fill_bar_properties cfg p).center =
      Vec3.add cfg.bg_center
        (Vec3.smul (-(cfg.width / 2) +
            (calculate_fill_bar_properties cfg p).len / 2)
          (direction cfg)) := by
  refine ⟨?_, ?_, ?_, ?_⟩
  · intro h
    rw [calc_len_eq, if_pos h]
  · intro h
    rw [calc_len_eq, if_neg (by linarith), if_pos h, bg_half_length]
  · intro h1 h2
    rw [calc_len_eq, if_neg (by linarith), if_neg (by linarith),
      bg_half_length]
  · rw [calc_center_eq, bg_half_length]

/-- C1 witness: the three length branches and the centre formula at the
default configuration. -/
theorem C1_fill_geometry_witness :
    (calculate_fill_bar_properties cfgA 0).len = MIN_SIZE cfgA ∧
    (calculate_fill_bar_properties cfgA 1).len = 2 * (cfgA.width / 2) ∧
    (calculate_fill_bar_properties cfgA (1/2)).len =
      max (MIN_SIZE cfgA) (2 * (cfgA.width / 2) * (1/2)) ∧
    (calculate_fill_bar_properties cfgA (1/2)).center =
      Vec3.add cfgA.bg_center
        (Vec3.smul (-(cfgA.width / 2) +
            (calculate_fill_bar_properties cfgA (1/2)).len / 2)
          (direction cfgA)) :=
  ⟨(C1_fill_geometry cfgA 0).1 (by norm_num),
    (C1_fill_geometry cfgA 1).2.1 (by norm_num),
    (C1_fill_geometry cfgA (1/2)).2.2.1 (by norm_num) (by norm_num),
    (C1_fill_geometry cfgA (1/2)).2.2.2⟩

theorem update_progress_instant_clamp (cfg : BarConfig) (s : BarState)
    (p : ℚ) :
    update_progress_instant cfg s (clamp01 p) =
      update_progress_instant cfg s p := by
  unfold update_progress_instant
  rw [clamp01_idem]

/-- C3: the progress computed by the `auto_progress` per-frame callback, for
a positive duration and clamped endpoints, is the start progress at elapsed
time ≤ 0, the end progress at elapsed time ≥ duration, and the linear
interpolation `start + (t / duration) * (end - start)` strictly in between. -/
theorem C3_auto_progress_linear (sp ep d t : ℚ) (hsp0 : 0 ≤ sp)
    (hsp1 : sp ≤ 1) (hep0 : 0 ≤ ep) (hep1 : ep ≤ 1) (hd : 0 < d) :
    (t ≤ 0 → autoComputedProgress sp ep d t = sp) ∧
    (d ≤ t → autoComputedProgress sp ep d t = ep) ∧
    (0 < t → t < d →
      autoComputedProgress sp ep d t = sp + (t / d) * (ep - sp)) := by
  refine ⟨?_, ?_, ?_⟩
  · intro ht
    simp only [autoComputedProgress, if_pos ht]
    split
    · next h1 => linarith
    · rfl
  · intro ht
    have h0 : ¬ t ≤ 0 := by linarith
    simp only [autoComputedProgress, if_neg h0, if_pos ht]
    split
    · next h1 => linarith
    · rfl
  · intro h1 h2
    have h3 : ¬ t ≤ 0 := by linarith
    have h4 : ¬ d ≤ t := by linarith
    simp only [autoComputedProgress, if_neg h3, if_neg h4]
    have hr0 : 0 ≤ t / d := by positivity
    have hr1 : t / d ≤ 1 := by
      rw [div_le_one hd]; linarith
    have k1 : 0 ≤ (1 - t / d) * (1 - sp) :=
      mul_nonneg (by linarith) (by linarith)
    have k2 : 0 ≤ (t / d) * (1 - ep) := mul_nonneg hr0 (by linarith)
    have hb : sp + t / d * (ep - sp) ≤ 1 := by nlinarith [k1, k2]
    split
    · next h5 => linarith
    · rfl

/-- C3 witness: `auto_progress(duration=5.0)` from 0 to 1 sampled at elapsed
times 0, 2.5 and 5.0 yields progress 0, 0.5 and 1. -/
theorem C3_auto_progress_linear_witness :
    autoComputedProgress 0 1 5 0 = 0 ∧
    autoComputedProgress 0 1 5 (5/2) = 0 + ((5/2) / 5) * (1 - 0) ∧
    autoComputedProgress 0 1 5 5 = 1 :=
  ⟨(C3_auto_progress_linear 0 1 5 0 (by norm_num) (by norm_num) (by norm_num)
      (by norm_num) (by norm_num)).1 (by norm_num),
    (C3_auto_progress_linear 0 1 5 (5/2) (by norm_num) (by norm_num)
      (by norm_num) (by norm_num) (by norm_num)).2.2 (by norm_num)
      (by norm_num),
    (C3_auto_progress_linear 0 1 5 5 (by norm_num) (by norm_num) (by norm_num)
      (by norm_num) (by norm_num)).2.1 (by norm_num)⟩

/-- C4: `set_progress` (end state), `update_progress_instant` and
`auto_progress` (over its start progress) all set `current_progress` to
`clamp(value, 0, 1)`; the clamped value always lies in `[0, 1]`, so no input
is ever rejected. In the embedding all three operations are total functions,
mirroring that none of them raises. -/
theorem C4_clamped_writes (cfg : BarConfig) (s : BarState) (v sp ep : ℚ) :
    (update_progress_instant cfg s v).current_progress = clamp01 v ∧
    (set_progress_end cfg s v).current_progress = clamp01 v ∧
    (auto_progress_call cfg s sp ep).current_progress = clamp01 sp ∧
    0 ≤ clamp01 v ∧ clamp01 v ≤ 1 := by
  refine ⟨?_, ?_, ?_, clamp01_nonneg v, clamp01_le_one v⟩
  · simp only [update_progress_instant]
    split_ifs <;> rfl
  · simp only [set_progress_end]
    split_ifs <;> rfl
  · simp only [auto_progress_call, update_progress_instant, clamp01_idem]
    split_ifs <;> rfl

/-- C7: `update_progress_instant` applied to an out-of-range value yields
exactly the same widget state as applied to the clamped value; the clamp is
idempotent. -/
theorem C7_clamp_idempotent_writes (cfg : BarConfig) (s : BarState) (p : ℚ) :
    update_progress_instant cfg s p =
      update_progress_instant cfg s (clamp01 p) :=
  (update_progress_instant_clamp cfg s p).symm

/-- C9: during a `set_progress` animation toward target `v`, the frame at
interpolation fraction `alpha` carries fill width, height and centre obtained
by linear interpolation `start + (target - start) * alpha` between the
geometry at the old progress `p0` and the geometry at the clamped target —
interpolation of each geometric quantity, not of the progress value — with
the interpolated width and height floored at `MIN_SIZE`. -/
theorem C9_frame_geometry_interpolation (cfg : BarConfig) (p0 v alpha : ℚ) :
    set_progress_fill_at cfg p0 (clamp01 v) alpha =
      { len := max (MIN_SIZE cfg)
          ((calculate_fill_bar_properties cfg p0).len +
            ((calculate_fill_bar_properties cfg (clamp01 v)).len -
              (calculate_fill_bar_properties cfg p0).len) * alpha),
        hgt := max (MIN_SIZE cfg)
          ((calculate_fill_bar_properties cfg p0).hgt +
            ((calculate_fill_bar_properties cfg (clamp01 v)).hgt -
              (calculate_fill_bar_properties cfg p0).hgt) * alpha),
        center := ⟨(calculate_fill_bar_properties cfg p0).center.x +
            ((calculate_fill_bar_properties cfg (clamp01 v)).center.x -
              (calculate_fill_bar_properties cfg p0).center.x) * alpha,
          (calculate_fill_bar_properties cfg p0).center.y +
            ((calculate_fill_bar_properties cfg (clamp01 v)).center.y -
              (calculate_fill_bar_properties cfg p0).center.y) * alpha,
          (calculate_fill_bar_properties cfg p0).center.z +
            ((calculate_fill_bar_properties cfg (clamp01 v)).center.z -
              (calculate_fill_bar_properties cfg p0).center.z) * alpha⟩ } :=
  rfl

/-- C10: calling `auto_progress`, before its animation plays, leaves the
widget in the state produced by `update_progress_instant(start_progress)`
(snapping progress, fill and label to the clamped start) with every
previously installed updater cleared and only the single new per-frame
updater installed. -/
theorem C10_auto_progress_setup (cfg : BarConfig) (s : BarState)
    (sp ep : ℚ) :
    auto_progress_call cfg s sp ep =
      { update_progress_instant cfg s sp with updaters := 1 } := by
  simp only [auto_progress_call, update_progress_instant_clamp]

theorem label_inv_applyEvent (cfg : BarConfig)
    (hshow : cfg.show_percentage = true) (s : BarState) (e : UpdateEvent) :
    ((applyEvent cfg s e).labelPresent = true ↔
      (applyEvent cfg s e).current_progress < 1) ∧
    ((applyEvent cfg s e).labelPresent = true →
      (applyEvent cfg s e).labelOpacity = 1) := by
  cases e with
  | instant p =>
    by_cases hp : 1 ≤ clamp01 p
    · simp [applyEvent, update_progress_instant, hshow, hp, not_lt]
    · simp [applyEvent, update_progress_instant, hshow, hp, lt_of_not_le hp]
  | autoFrame sp ep d t =>
    by_cases hp : 1 ≤ autoComputedProgress (clamp01 sp) (clamp01 ep) d t
    · simp [applyEvent, auto_updater_run, hshow, hp, not_lt]
    · simp [applyEvent, auto_updater_run, hshow, hp, lt_of_not_le hp]

/-- C2: after any nonempty sequence of progress updates (instant updates or
firings of the `auto_progress` per-frame updater) on a widget configured to
show the percentage, the label is present exactly when the current progress
is strictly below 1, and whenever present its opacity is 1 — so hiding at
progress 1 and re-adding with opacity reset below 1 both hold. -/
theorem C2_label_visibility (cfg : BarConfig) (s : BarState)
    (es : List UpdateEvent) (hshow : cfg.show_percentage = true)
    (hne : es ≠ []) :
    ((es.foldl (applyEvent cfg) s).labelPresent = true ↔
      (es.foldl (applyEvent cfg) s).current_progress < 1) ∧
    ((es.foldl (applyEvent cfg) s).labelPresent = true →
      (es.foldl (applyEvent cfg) s).labelOpacity = 1) := by
  induction es generalizing s with
  | nil => exact absurd rfl hne
  | cons e es ih =>
    rw [List.foldl_cons]
    rcases eq_or_ne es [] with h | h
    · subst h
      simpa using label_inv_applyEvent cfg hshow s e
    · exact ih (applyEvent cfg s e) h

/-- C2 witness: driving the default widget to progress 1 hides the label;
a later instant update to progress 1/2 re-adds it with opacity 1. -/
theorem C2_label_visibility_witness :
    (([UpdateEvent.instant 1,
        UpdateEvent.instant (1/2)].foldl (applyEvent cfgA) s0).labelPresent =
          true ↔
      ([UpdateEvent.instant 1,
        UpdateEvent.instant (1/2)].foldl (applyEvent cfgA) s0).current_progress
          < 1) ∧
    (([UpdateEvent.instant 1,
        UpdateEvent.instant (1/2)].foldl (applyEvent cfgA) s0).labelPresent =
          true →
      ([UpdateEvent.instant 1,
        UpdateEvent.instant (1/2)].foldl (applyEvent cfgA) s0).labelOpacity =
          1) :=
  C2_label_visibility cfgA s0 [UpdateEvent.instant 1, UpdateEvent.instant (1/2)]
    rfl (by simp)

/-- C8: whenever the angle reduced modulo 360 lies within the code's `1e-6`
tolerance of 0 (or 360), 90, 180 or 270 degrees, `_get_direction_vector`
returns the exact unit axis vector `(1,0,0)`, `(0,1,0)`, `(-1,0,0)` or
`(0,-1,0)` respectively, for an arbitrary trigonometric fallback `f` — the
result involves no trigonometric computation and depends only on the angle
modulo 360. -/
theorem C8_exact_axis_directions (a : ℚ) (f : ℚ → Vec3) :
    (|pymod a 360 - 0| < 1/1000000 ∨ |pymod a 360 - 360| < 1/1000000 →
      get_direction_vector a f = ⟨1, 0, 0⟩) ∧
    (|pymod a 360 - 90| < 1/1000000 →
      get_direction_vector a f = ⟨0, 1, 0⟩) ∧
    (|pymod a 360 - 180| < 1/1000000 →
      get_direction_vector a f = ⟨-1, 0, 0⟩) ∧
    (|pymod a 360 - 270| < 1/1000000 →
      get_direction_vector a f = ⟨0, -1, 0⟩) := by
  refine ⟨?_, ?_, ?_, ?_⟩
  · intro h
    simp only [get_direction_vector]
    rw [if_pos h]
  · intro h
    have hm := abs_lt.mp h
    simp only [get_direction_vector]
    rw [if_neg, if_pos h]
    rintro (h0 | h0) <;> have := abs_lt.mp h0 <;> linarith [this.1, this.2]
  · intro h
    have hm := abs_lt.mp h
    simp only [get_direction_vector]
    rw [if_neg, if_neg, if_pos h]
    · intro h0
      have := abs_lt.mp h0
      linarith [this.1, this.2]
    · rintro (h0 | h0) <;> have := abs_lt.mp h0 <;> linarith [this.1, this.2]
  · intro h
    have hm := abs_lt.mp h
    simp only [get_direction_vector]
    rw [if_neg, if_neg, if_neg, if_pos h]
    · intro h0
      have := abs_lt.mp h0
      linarith [this.1, this.2]
    · intro h0
      have := abs_lt.mp h0
      linarith [this.1, this.2]
    · rintro (h0 | h0) <;> have := abs_lt.mp h0 <;> linarith [this.1, this.2]

/-- C8 witness: the angle 450° reduces to 90° modulo 360 and yields exactly
the upward unit vector, independently of the trigonometric fallback. -/
theorem C8_exact_axis_directions_witness :
    get_direction_vector 450 (fun _ => ⟨0, 0, 0⟩) = ⟨0, 1, 0⟩ :=
  (C8_exact_axis_directions 450 (fun _ => ⟨0, 0, 0⟩)).2.1
    (by norm_num [pymod])

theorem min_size_le_len (cfg : BarConfig) (p : ℚ)
    (hw : MIN_SIZE cfg ≤ 2 * bg_half_length cfg) :
    MIN_SIZE cfg ≤ (calculate_fill_bar_properties cfg p).len := by
  rw [calc_len_eq]
  split_ifs with h1 h2
  · exact le_refl _
  · exact hw
  · exact le_max_left _ _

theorem spfa_one (cfg : BarConfig) (p0 p : ℚ)
    (hw : MIN_SIZE cfg ≤ 2 * bg_half_length cfg)
    (hh : MIN_SIZE cfg ≤ cfg.height * fillHeightScale) :
    set_progress_fill_at cfg p0 p 1 = calculate_fill_bar_properties cfg p := by
  refine FillProps.ext ?_ ?_ ?_
  · rw [spfa_len]
    have e : (calculate_fill_bar_properties cfg p0).len +
        ((calculate_fill_bar_properties cfg p).len -
          (calculate_fill_bar_properties cfg p0).len) * 1 =
        (calculate_fill_bar_properties cfg p).len := by ring
    rw [e]
    exact max_eq_right (min_size_le_len cfg p hw)
  · rw [spfa_hgt]
    simp only [calc_hgt_eq]
    have e : cfg.height * fillHeightScale +
        (cfg.height * fillHeightScale - cfg.height * fillHeightScale) * 1 =
        cfg.height * fillHeightScale := by ring
    rw [e]
    exact max_eq_right hh
  · rw [spfa_center]
    refine Vec3.ext ?_ ?_ ?_ <;> simp

theorem set_progress_end_fillHeight (cfg : BarConfig) (s : BarState)
    (v : ℚ) :
    (set_progress_end cfg s v).fillHeight =
      (set_progress_fill_at cfg s.current_progress (clamp01 v) 1).hgt := by
  simp only [set_progress_end]
  split_ifs <;> rfl

theorem update_progress_instant_fillHeight (cfg : BarConfig) (s : BarState)
    (v : ℚ) :
    (update_progress_instant cfg s v).fillHeight =
      (calculate_fill_bar_properties cfg (clamp01 v)).hgt := by
  simp only [update_progress_instant]
  split_ifs <;> rfl

/-- C5 counterexample: on a widget with height 0.1 and corner radius 0.1
(so `MIN_SIZE = 0.18` exceeds the fill height `0.095`), playing
`set_progress(0.5)` to completion floors the fill bar's height at `MIN_SIZE`
while `update_progress_instant(0.5)` does not, so the two end states differ —
refuting the claim as universally stated. -/
theorem C5_counterexample :
    ¬ stateEquiv (set_progress_end cfgB s0 (1/2))
      (update_progress_instant cfgB s0 (1/2)) := by
  intro h
  have hh := h.2.2.1
  rw [set_progress_end_fillHeight, update_progress_instant_fillHeight] at hh
  simp only [spfa_hgt, calc_hgt_eq] at hh
  rw [show cfgB.height * fillHeightScale +
      (cfgB.height * fillHeightScale - cfgB.height * fillHeightScale) * 1 =
      cfgB.height * fillHeightScale from by ring] at hh
  rw [max_eq_left
    (by norm_num [MIN_SIZE, BASE_MIN_SIZE, fillHeightScale, cfgB])] at hh
  norm_num [MIN_SIZE, BASE_MIN_SIZE, fillHeightScale, cfgB] at hh

/-- C5 (amended): whenever the `MIN_SIZE` floor is inactive for the
configuration — `MIN_SIZE` at most the background's total length and at most
the fill height `0.95 * height` — `update_progress_instant(v)` leaves the
widget in the same end state (progress, fill width, height and centre, label
presence, and opacity and text when present) as playing `set_progress(v)` to
completion, from every starting state; without that proviso `set_progress`
additionally floors the interpolated fill width and height at `MIN_SIZE`. -/
theorem C5_instant_matches_animated_end (cfg : BarConfig) (s : BarState)
    (v : ℚ) (hw : MIN_SIZE cfg ≤ 2 * (cfg.width / 2))
    (hh : MIN_SIZE cfg ≤ cfg.height * fillHeightScale) :
    stateEquiv (set_progress_end cfg s v)
      (update_progress_instant cfg s v) := by
  have hfp := spfa_one cfg s.current_progress (clamp01 v) hw hh
  simp only [set_progress_end, update_progress_instant, stateEquiv, hfp]
  split_ifs <;> simp

/-- C5 witness: on the default configuration (where the floors are inactive)
the two operations agree at target 1/2 from the freshly constructed state. -/
theorem C5_instant_matches_animated_end_witness :
    stateEquiv (set_progress_end cfgA s0 (1/2))
      (update_progress_instant cfgA s0 (1/2)) :=
  C5_instant_matches_animated_end cfgA s0 (1/2)
    (by norm_num [MIN_SIZE, BASE_MIN_SIZE, cfgA])
    (by norm_num [MIN_SIZE, BASE_MIN_SIZE, fillHeightScale, cfgA])

theorem autoRunDone_step (sp ep d : ℚ) (st : AutoRunState) (e : AutoEvent)
    (h : autoRunDone ep st) : autoRunDone ep (auto_run_step sp ep d st e) := by
  obtain ⟨hc, hi, hk, hp⟩ := h
  cases e with
  | tick alpha =>
    simp only [auto_run_step, auto_update_func]
    rw [if_neg (by simp [hc])]
    exact ⟨hc, hi, hk, hp⟩
  | frameUpdate =>
    simp only [auto_run_step, auto_frame_updater]
    rw [if_neg (by simp [hi])]
    exact ⟨hc, hi, hk, hp⟩

theorem autoRunInv_step (sp ep d : ℚ) (hd : 0 < d) (st : AutoRunState)
    (e : AutoEvent) (h : autoRunInv d ep st) :
    autoRunInv d ep (auto_run_step sp ep d st e) := by
  rcases h with ⟨hc, hi, hk, ht⟩ | hdone
  · cases e with
    | tick alpha =>
      simp only [auto_run_step, auto_update_func]
      by_cases ha : 1 ≤ alpha
      · rw [if_pos ⟨ha, hc⟩]
        exact Or.inr ⟨rfl, rfl, by simp [hk], rfl⟩
      · rw [if_neg (by simp [ha])]
        refine Or.inl ⟨hc, hi, hk, ?_⟩
        show alpha * d < d
        calc alpha * d < 1 * d :=
              mul_lt_mul_of_pos_right (lt_of_not_le ha) hd
          _ = d := one_mul d
    | frameUpdate =>
      simp only [auto_run_step, auto_frame_updater]
      rw [if_pos hi, if_neg (by intro hx; linarith [hx.2, ht])]
      exact Or.inl ⟨hc, hi, hk, ht⟩
  · exact Or.inr (autoRunDone_step sp ep d st e hdone)

theorem autoRunInv_run (sp ep d : ℚ) (hd : 0 < d) (st : AutoRunState)
    (es : List AutoEvent) (h : autoRunInv d ep st) :
    autoRunInv d ep (es.foldl (auto_run_step sp ep d) st) := by
  induction es generalizing st with
  | nil => exact h
  | cons e es ih => exact ih _ (autoRunInv_step sp ep d hd st e h)

theorem autoRunDone_run (sp ep d : ℚ) (st : AutoRunState)
    (es : List AutoEvent) (h : autoRunDone ep st) :
    autoRunDone ep (es.foldl (auto_run_step sp ep d) st) := by
  induction es generalizing st with
  | nil => exact h
  | cons e es ih => exact ih _ (autoRunDone_step sp ep d st e h)

theorem tick_big_done (d ep alpha : ℚ) (st : AutoRunState)
    (h : autoRunInv d ep st) (ha : 1 ≤ alpha) :
    autoRunDone ep (auto_update_func d ep alpha st) := by
  rcases h with ⟨hc, _, hk, _⟩ | ⟨hc, hi, hk, hp⟩
  · simp only [auto_update_func]
    rw [if_pos ⟨ha, hc⟩]
    exact ⟨rfl, rfl, by simp [hk], rfl⟩
  · simp only [auto_update_func]
    rw [if_neg (by simp [hc])]
    exact ⟨hc, hi, hk, hp⟩

theorem run_reaches_done (sp ep d : ℚ) (hd : 0 < d) (st : AutoRunState)
    (es : List AutoEvent) (h : autoRunInv d ep st)
    (hbig : ∃ alpha, 1 ≤ alpha ∧ AutoEvent.tick alpha ∈ es) :
    autoRunDone ep (es.foldl (auto_run_step sp ep d) st) := by
  induction es generalizing st with
  | nil =>
    obtain ⟨alpha, _, hmem⟩ := hbig
    exact absurd hmem (List.not_mem_nil _)
  | cons e es ih =>
    obtain ⟨alpha, ha, hmem⟩ := hbig
    rw [List.foldl_cons]
    rcases List.mem_cons.mp hmem with heq | hmem'
    · subst heq
      exact autoRunDone_run sp ep d _ es (tick_big_done d ep alpha st h ha)
    · exact ih _ (autoRunInv_step sp ep d hd st e h) ⟨alpha, ha, hmem'⟩

/-- C6: in any run of an `auto_progress` animation with positive duration —
any interleaving of `update_func` invocations and per-frame updater firings —
the final commit executes at most once; and once some `update_func` call has
interpolation fraction ≥ 1 (elapsed time reaching the duration), the run ends
with the updater removed, the cleared flag set, the commit having executed
exactly once, and the progress committed to the end progress, regardless of
any later frames. -/
theorem C6_commit_exactly_once (sp ep d : ℚ) (es : List AutoEvent)
    (hd : 0 < d) :
    (auto_run sp ep d es).commits ≤ 1 ∧
    ((∃ alpha, 1 ≤ alpha ∧ AutoEvent.tick alpha ∈ es) →
      autoRunDone ep (auto_run sp ep d es)) := by
  have hinit : autoRunInv d ep (autoInitState sp) := Or.inl ⟨rfl, rfl, rfl, hd⟩
  constructor
  · unfold auto_run
    rcases autoRunInv_run sp ep d hd _ es hinit with ⟨_, _, hk, _⟩ |
      ⟨_, _, hk, _⟩ <;> omega
  · intro hbig
    exact run_reaches_done sp ep d hd _ es hinit hbig

/-- C6 witness: the concrete duration-5 trace `esW`, whose final frames
repeat the completed tick, commits exactly once and ends cleared, removed and
at progress 1. -/
theorem C6_commit_exactly_once_witness :
    (auto_run 0 1 5 esW).commits ≤ 1 ∧ autoRunDone 1 (auto_run 0 1 5 esW) :=
  ⟨(C6_commit_exactly_once 0 1 5 esW (by norm_num)).1,
    (C6_commit_exactly_once 0 1 5 esW (by norm_num)).2
      ⟨1, le_refl 1, by simp [esW]⟩⟩

end ProgressBarModel
